import Mathlib

/-!
A shallow embedding of the goresetit reset workflow (src/functions.go,
src/main.go, src/structs.go).  External effects (git commands, the
filesystem, the GitHub and GitLab release APIs, interactive prompts) are
modelled by explicit environment records; each embedded function returns
the list of observable events it emits together with its result, so the
claims about ordering, fatality and tolerance of failures can be stated
as theorems about the event trace.
-/

/-- GitProvider from src/structs.go: the supported Git hosting providers. -/
inductive GitProvider where
  | github
  | gitlab
deriving DecidableEq, Repr

/-- RepoInfo from src/structs.go. -/
structure RepoInfo where
  provider : GitProvider
  fullPath : String
  repoName : String
  token : String
  gitLabURL : String
  dryRun : Bool
deriving DecidableEq, Repr

/-- CommandLineFlags from src/structs.go (fields used by main). -/
structure CommandLineFlags where
  repoPath : String
  token : String
  provider : String
  gitLabURL : String
  dryRun : Bool
  noInteractive : Bool
  commitMsg : String
deriving DecidableEq, Repr

/-- A GitHub release as consumed by DeleteGitHubReleases: numeric ID,
display name and tag name. -/
structure GHRelease where
  id : Int
  name : String
  tagName : String
deriving DecidableEq, Repr

/-- A GitLab release as consumed by DeleteGitLabReleases: display name and
tag name (GitLab releases are keyed by tag). -/
structure GLRelease where
  name : String
  tagName : String
deriving DecidableEq, Repr

/-- Observable events of a run: every invocation of the external git
command, every provider API call, and the operator-visible reports
(warnings, would-delete reports, success messages). -/
inductive Event where
  | infoCloning (url : String)
  | gitRun (args : List String)
  | infoExecuting (args : List String)
  | infoFoundTags (n : Nat)
  | infoNoLocalTags
  | infoRemovingLocalTag (tag : String)
  | warnLocalTagDeleteFailed (tag : String)
  | wouldDeleteRemoteTags (tags : List String)
  | wouldForcePush
  | successRemoteTagDeleted (tag : String)
  | warnRemoteTagDeleteFailed (tag : String)
  | ghListReleases (owner repo : String)
  | ghDeleteRelease (id : Int)
  | ghWouldDeleteRelease (id : Int) (name tagName : String)
  | successGhReleaseDeleted (id : Int) (name : String)
  | warnGhReleaseDeleteFailed (id : Int)
  | glListReleases (path : String)
  | glDeleteRelease (path tagName : String)
  | glWouldDeleteRelease (name tagName : String)
  | successGlReleaseDeleted (name : String)
  | warnGlReleaseDeleteFailed (tagName : String)
  | infoNoReleases
  | infoFoundReleases (n : Nat)
deriving DecidableEq, Repr

/-- Outcomes of the external git binary: RunGitCommandWithOutput in
src/functions.go succeeds exactly on exit status zero; git tag (used by
GetGitTags) additionally produces captured stdout. -/
structure GitEnv where
  run : List String → Bool
  tagOk : Bool
  tagOutput : String

/-- Outcomes of the filesystem and chdir calls made by ResetRepo
(os.RemoveAll, os.MkdirAll, os.Chdir into the temp dir, os.Chdir into
the clone). -/
structure FsEnv where
  removeAllOk : Bool
  mkdirOk : Bool
  chdirTmpOk : Bool
  chdirRepoOk : Bool

/-- Outcomes of the GitHub release API used by DeleteGitHubReleases. -/
structure GitHubEnv where
  listResult : Except String (List GHRelease)
  deleteOk : Int → Bool

/-- Outcomes of the GitLab release API used by DeleteGitLabReleases;
clientOk models whether the client constructor succeeds. -/
structure GitLabEnv where
  clientOk : Bool
  listResult : Except String (List GLRelease)
  deleteOk : String → Bool

/-- The full environment of one run. tempDir models os.TempDir(). -/
structure Env where
  tempDir : String
  fs : FsEnv
  git : GitEnv
  gh : GitHubEnv
  gl : GitLabEnv

/-- The process state ResetRepo mutates: the current working directory of
the process and whether the temporary workspace directory still exists. -/
structure SysState where
  cwd : String
  tmpExists : Bool
deriving DecidableEq, Repr

deriving instance DecidableEq for Except

/-- The ASCII white space set of Go strings.TrimSpace / unicode.IsSpace. -/
def goIsSpace (c : Char) : Bool :=
  c = ' ' || c = '\t' || c = '\n' || c = '\x0b' || c = '\x0c' || c = '\r'

/-- Go strings.TrimSpace: drop leading and trailing white space. -/
def goTrimSpace (s : String) : String :=
  String.mk (((s.data.dropWhile goIsSpace).reverse.dropWhile goIsSpace).reverse)

/-- Splitting a character list around each newline; the result always has
one more element than the number of newlines, so the empty input yields
one empty segment, exactly like Go strings.Split. -/
def splitNlChars : List Char → List (List Char)
  | [] => [[]]
  | c :: cs =>
      match splitNlChars cs with
      | [] => [[]]
      | h :: t => if c = '\n' then [] :: h :: t else (c :: h) :: t

/-- Go strings.Split(s, newline). -/
def goSplitLines (s : String) : List String :=
  (splitNlChars s.data).map String.mk

/-- Containment of one character list in another. -/
def containsSub (s pat : List Char) : Bool :=
  match s with
  | [] => pat.isEmpty
  | _ :: rest => pat.isPrefixOf s || containsSub rest pat

/-- Go strings.Contains: substring containment. -/
def goStringsContains (s substr : String) : Bool :=
  containsSub s.data substr.data

/-- The provider-specific clone URL built in ResetRepo
(src/functions.go lines 75-81). -/
def cloneURL (repoInfo : RepoInfo) : String :=
  match repoInfo.provider with
  | GitProvider.github =>
      "https://github.com/" ++ repoInfo.fullPath ++ "/" ++ repoInfo.repoName ++ ".git"
  | GitProvider.gitlab =>
      repoInfo.gitLabURL ++ "/" ++ repoInfo.fullPath ++ "/" ++ repoInfo.repoName ++ ".git"

/-- GetGitTags (src/functions.go lines 164-180): run git tag, split the
trimmed output on newlines, and special-case the single-empty-line result
into the empty list. -/
def GetGitTags (git : GitEnv) : Except String (List String) :=
  if git.tagOk then
    let tags := goSplitLines (goTrimSpace git.tagOutput)
    if tags = [""] then Except.ok [] else Except.ok tags
  else
    Except.error ("Command failed: git tag" ++ git.tagOutput)

/-- The fixed gitOperations table of ResetRepo (src/functions.go lines
90-99): description and argument vector of each history-rewrite sub-step. -/
def gitOperations (commitMessage : String) : List (String × List String) :=
  [("Creating new orphan branch", ["checkout", "--orphan", "temp_branch"]),
   ("Staging all files", ["add", "-A"]),
   ("Creating initial commit", ["commit", "-m", commitMessage]),
   ("Removing old main branch", ["branch", "-D", "main"]),
   ("Renaming branch to main", ["branch", "-m", "main"])]

/-- The history-rewrite loop of ResetRepo (src/functions.go lines
101-108): run each operation; on failure, return the error unless
strings.Contains(op.args[0], "branch -D") holds, in which case continue. -/
def runGitOperations (run : List String → Bool) :
    List (String × List String) → List Event × Option String
  | [] => ([], none)
  | (desc, args) :: rest =>
      let evs := [Event.infoExecuting args, Event.gitRun args]
      if run args then
        let (evs2, res) := runGitOperations run rest
        (evs ++ evs2, res)
      else
        if !(goStringsContains (args.headD "") "branch -D") then
          (evs, some ("failed to " ++ desc))
        else
          let (evs2, res) := runGitOperations run rest
          (evs ++ evs2, res)

/-- The local tag deletion loop of ResetRepo (src/functions.go lines
118-123): per-tag failures only warn. -/
def deleteLocalTags (run : List String → Bool) : List String → List Event
  | [] => []
  | t :: ts =>
      Event.infoRemovingLocalTag t :: Event.gitRun ["tag", "-d", t] ::
        ((if run ["tag", "-d", t] then [] else [Event.warnLocalTagDeleteFailed t])
          ++ deleteLocalTags run ts)

/-- The remote tag deletion loop of ResetRepo (src/functions.go lines
139-145): per-tag failures only warn, successes report. -/
def deleteRemoteTags (run : List String → Bool) : List String → List Event
  | [] => []
  | t :: ts =>
      Event.gitRun ["push", "origin", "--delete", "refs/tags/" ++ t] ::
        ((if run ["push", "origin", "--delete", "refs/tags/" ++ t]
          then [Event.successRemoteTagDeleted t]
          else [Event.warnRemoteTagDeleteFailed t])
          ++ deleteRemoteTags run ts)

/-- The GitHub release deletion loop (src/functions.go lines 211-218). -/
def ghDeleteLoop (deleteOk : Int → Bool) : List GHRelease → List Event
  | [] => []
  | r :: rs =>
      Event.ghDeleteRelease r.id ::
        ((if deleteOk r.id then [Event.successGhReleaseDeleted r.id r.name]
          else [Event.warnGhReleaseDeleteFailed r.id])
          ++ ghDeleteLoop deleteOk rs)

/-- DeleteGitHubReleases (src/functions.go lines 186-222): list releases
(fatal on failure), return early when none, report in dry-run mode,
otherwise delete each with per-release failures only warned. -/
def DeleteGitHubReleases (repoInfo : RepoInfo) (gh : GitHubEnv) :
    List Event × Except String Unit :=
  let listEv := Event.ghListReleases repoInfo.fullPath repoInfo.repoName
  match gh.listResult with
  | Except.error e => ([listEv], Except.error ("failed to list releases: " ++ e))
  | Except.ok releases =>
      if releases.length = 0 then
        ([listEv, Event.infoNoReleases], Except.ok ())
      else if repoInfo.dryRun then
        (listEv :: Event.infoFoundReleases releases.length ::
          releases.map (fun r => Event.ghWouldDeleteRelease r.id r.name r.tagName),
         Except.ok ())
      else
        (listEv :: Event.infoFoundReleases releases.length ::
          ghDeleteLoop gh.deleteOk releases,
         Except.ok ())

/-- The GitLab release deletion loop (src/functions.go lines 254-267). -/
def glDeleteLoop (path : String) (deleteOk : String → Bool) :
    List GLRelease → List Event
  | [] => []
  | r :: rs =>
      Event.glDeleteRelease path r.tagName ::
        ((if deleteOk r.tagName then [Event.successGlReleaseDeleted r.name]
          else [Event.warnGlReleaseDeleteFailed r.tagName])
          ++ glDeleteLoop path deleteOk rs)

/-- DeleteGitLabReleases (src/functions.go lines 224-271): build the
client (fatal on failure), list releases for the combined path (fatal on
failure), return early when none, report in dry-run mode, otherwise
delete each by tag name with per-release failures only warned. -/
def DeleteGitLabReleases (repoInfo : RepoInfo) (gl : GitLabEnv) :
    List Event × Except String Unit :=
  if !gl.clientOk then
    ([], Except.error "failed to create GitLab client")
  else
    let fullPath := repoInfo.fullPath ++ "/" ++ repoInfo.repoName
    let listEv := Event.glListReleases fullPath
    match gl.listResult with
    | Except.error e => ([listEv], Except.error ("failed to list releases: " ++ e))
    | Except.ok releases =>
        if releases.length = 0 then
          ([listEv, Event.infoNoReleases], Except.ok ())
        else if repoInfo.dryRun then
          (listEv :: Event.infoFoundReleases releases.length ::
            releases.map (fun r => Event.glWouldDeleteRelease r.name r.tagName),
           Except.ok ())
        else
          (listEv :: Event.infoFoundReleases releases.length ::
            glDeleteLoop fullPath gl.deleteOk releases,
           Except.ok ())

/-- ResetRepo (src/functions.go lines 58-162).  Takes the initial working
directory and whether the temp dir initially exists; returns the event
trace, the final process state (working directory, temp dir existence)
and the result.  The deferred os.RemoveAll(tmpPath) is reflected by
tmpExists being false on every exit path reached after MkdirAll. -/
def ResetRepo (env : Env) (cwd0 : String) (tmp0 : Bool)
    (repoInfo : RepoInfo) (commitMessage : String) :
    List Event × SysState × Except String Unit :=
  let tmpPath := env.tempDir ++ "/git-tmp"
  if !env.fs.removeAllOk then
    ([], ⟨cwd0, tmp0⟩, Except.error "failed to remove existing temporary directory")
  else if !env.fs.mkdirOk then
    ([], ⟨cwd0, tmp0⟩, Except.error "failed to create temporary directory")
  else if !env.fs.chdirTmpOk then
    ([], ⟨cwd0, false⟩, Except.error "failed to change to temporary directory")
  else
    let url := cloneURL repoInfo
    let evClone := [Event.infoCloning url, Event.gitRun ["clone", url]]
    if !env.git.run ["clone", url] then
      (evClone, ⟨tmpPath, false⟩, Except.error "failed to clone repository")
    else
      let cwd2 := if env.fs.chdirRepoOk then tmpPath ++ "/" ++ repoInfo.repoName else tmpPath
      let opEvs := (runGitOperations env.git.run (gitOperations commitMessage)).1
      match (runGitOperations env.git.run (gitOperations commitMessage)).2 with
      | some e => (evClone ++ opEvs, ⟨cwd2, false⟩, Except.error e)
      | none =>
          match GetGitTags env.git with
          | Except.error e =>
              (evClone ++ opEvs, ⟨cwd2, false⟩, Except.error ("failed to list tags: " ++ e))
          | Except.ok tags =>
              let tagEvs :=
                if tags.length > 0 then
                  Event.infoFoundTags tags.length :: deleteLocalTags env.git.run tags
                else [Event.infoNoLocalTags]
              let evs1 := evClone ++ opEvs ++ tagEvs
              if repoInfo.dryRun then
                (evs1 ++
                   (if tags.length > 0 then [Event.wouldDeleteRemoteTags tags] else [])
                   ++ [Event.wouldForcePush],
                 ⟨cwd2, false⟩, Except.ok ())
              else
                let evs2 := evs1 ++
                  (if tags.length > 0 then deleteRemoteTags env.git.run tags else [])
                  ++ [Event.gitRun ["push", "-f", "origin", "main"]]
                if !env.git.run ["push", "-f", "origin", "main"] then
                  (evs2, ⟨cwd2, false⟩, Except.error "failed to push changes")
                else
                  match repoInfo.provider with
                  | GitProvider.github =>
                      (evs2 ++ (DeleteGitHubReleases repoInfo env.gh).1, ⟨cwd2, false⟩,
                       (DeleteGitHubReleases repoInfo env.gh).2)
                  | GitProvider.gitlab =>
                      (evs2 ++ (DeleteGitLabReleases repoInfo env.gl).1, ⟨cwd2, false⟩,
                       (DeleteGitLabReleases repoInfo env.gl).2)

/-- Outcome of the interactive confirmation prompt (PromptConfirmation). -/
inductive ConfirmOutcome where
  | failed
  | answer (b : Bool)
deriving DecidableEq, Repr

/-- Outcome of the interactive commit message prompt (PromptCommitMessage). -/
inductive PromptOutcome where
  | failed
  | result (s : String)
deriving DecidableEq, Repr

/-- What the CLI layer does after parsing: exit before the core runs, or
invoke ResetRepo with a commit message. -/
inductive MainOutcome where
  | exitEarly
  | invokeCore (commitMessage : String)
deriving DecidableEq, Repr

/-- The default commit message of src/main.go. -/
def defaultCommitMsg : String := "Initial commit"

/-- The commit-message determination and prompting logic of main
(src/main.go lines 126-172): flag value if non-empty, else the default in
non-interactive mode, else prompt; an empty or failed prompt, a failed or
negative confirmation, all exit without invoking the core. -/
def determineCommitMessage (flags : CommandLineFlags)
    (confirm : ConfirmOutcome) (prompt : PromptOutcome) : MainOutcome :=
  let commitMessage :=
    if flags.commitMsg ≠ "" then flags.commitMsg
    else if flags.noInteractive then defaultCommitMsg
    else ""
  if !flags.noInteractive then
    match confirm with
    | ConfirmOutcome.failed => MainOutcome.exitEarly
    | ConfirmOutcome.answer false => MainOutcome.exitEarly
    | ConfirmOutcome.answer true =>
        if commitMessage = "" then
          match prompt with
          | PromptOutcome.failed => MainOutcome.exitEarly
          | PromptOutcome.result m =>
              if m = "" then MainOutcome.exitEarly else MainOutcome.invokeCore m
        else MainOutcome.invokeCore commitMessage
  else MainOutcome.invokeCore commitMessage

/-- The git remote-mutation commands of a trace: any git push invocation
(remote tag deletion or force push). -/
def remotePushCmds (evs : List Event) : List (List String) :=
  evs.filterMap (fun ev =>
    match ev with
    | Event.gitRun args => if args.headD "" = "push" then some args else none
    | _ => none)

/-- The GitHub release-deletion API calls of a trace. -/
def ghDeleteCalls (evs : List Event) : List Int :=
  evs.filterMap (fun ev =>
    match ev with
    | Event.ghDeleteRelease i => some i
    | _ => none)

/-- The GitLab release-deletion API calls of a trace. -/
def glDeleteCalls (evs : List Event) : List String :=
  evs.filterMap (fun ev =>
    match ev with
    | Event.glDeleteRelease _ t => some t
    | _ => none)

/-- Release related events of a trace: provider list calls, delete calls
and would-delete reports. -/
def isReleaseEvent (ev : Event) : Bool :=
  match ev with
  | Event.ghListReleases _ _ => true
  | Event.ghDeleteRelease _ => true
  | Event.ghWouldDeleteRelease _ _ _ => true
  | Event.glListReleases _ => true
  | Event.glDeleteRelease _ _ => true
  | Event.glWouldDeleteRelease _ _ => true
  | _ => false

/-- C3: on a repository with zero tags (the git tag command succeeds with
empty output), GetGitTags returns the empty list, not a one-element list
holding the empty string. -/
theorem getGitTags_empty_output_yields_nil (git : GitEnv)
    (hok : git.tagOk = true) (hout : git.tagOutput = "") :
    GetGitTags git = Except.ok [] := by
  cases git
  subst hok
  subst hout
  rfl

/-- Witness for C3 at a concrete environment with empty tag output. -/
theorem getGitTags_empty_output_yields_nil_witness :
    GetGitTags ⟨fun _ => true, true, ""⟩ = Except.ok [] :=
  getGitTags_empty_output_yields_nil ⟨fun _ => true, true, ""⟩ rfl rfl

/-- C4: the clone URL built by ResetRepo is a deterministic function of
the target: GitHub targets map to https, github.com, owner, repo, .git;
GitLab targets map to baseURL, owner path, repo, .git. -/
theorem cloneURL_deterministic (r : RepoInfo) :
    (r.provider = GitProvider.github →
      cloneURL r = "https://github.com/" ++ r.fullPath ++ "/" ++ r.repoName ++ ".git") ∧
    (r.provider = GitProvider.gitlab →
      cloneURL r = r.gitLabURL ++ "/" ++ r.fullPath ++ "/" ++ r.repoName ++ ".git") := by
  constructor <;> intro h <;> simp [cloneURL, h]

/-- Witness for C4: the GitLab scenario of the spec, baseURL
https://gitlab.example.com, group path team/sub, repo proj. -/
theorem cloneURL_deterministic_witness :
    cloneURL ⟨GitProvider.gitlab, "team/sub", "proj", "tok", "https://gitlab.example.com", false⟩
      = "https://gitlab.example.com/team/sub/proj.git" := by
  have h := (cloneURL_deterministic
    ⟨GitProvider.gitlab, "team/sub", "proj", "tok", "https://gitlab.example.com", false⟩).2 rfl
  exact h.trans (by decide)

/-- C9: whenever the CLI layer of main invokes the core, the commit
message it passes is non-empty: a non-empty flag value, the non-empty
default in non-interactive mode, or a non-empty prompt result; an empty
prompt result exits without invoking the core. -/
theorem commit_message_nonempty (flags : CommandLineFlags)
    (confirm : ConfirmOutcome) (prompt : PromptOutcome) (m : String)
    (h : determineCommitMessage flags confirm prompt = MainOutcome.invokeCore m) :
    m ≠ "" := by
  intro hm
  subst hm
  unfold determineCommitMessage at h
  by_cases hflag : flags.commitMsg = ""
  case neg =>
    by_cases hni : flags.noInteractive
    · simp [hflag, hni] at h
    · cases confirm with
      | failed => simp [hflag, hni] at h
      | answer b =>
          cases b
          · simp [hflag, hni] at h
          · simp [hflag, hni] at h
  case pos =>
    by_cases hni : flags.noInteractive
    · simp [hflag, hni, defaultCommitMsg] at h
    · cases confirm with
      | failed => simp [hflag, hni] at h
      | answer b =>
          cases b
          · simp [hflag, hni] at h
          · cases prompt with
            | failed => simp [hflag, hni] at h
            | result s =>
                by_cases hs : s = ""
                · simp [hflag, hni, hs] at h
                · simp [hflag, hni, hs] at h

/-- Witness for C9 at a concrete interactive run whose prompt returns a
non-empty message. -/
theorem commit_message_nonempty_witness :
    determineCommitMessage ⟨"owner/repo", "tok", "github", "", false, false, ""⟩
        (ConfirmOutcome.answer true) (PromptOutcome.result "fresh start")
      = MainOutcome.invokeCore "fresh start" ∧ ("fresh start" : String) ≠ "" :=
  ⟨by decide,
   commit_message_nonempty ⟨"owner/repo", "tok", "github", "", false, false, ""⟩
     (ConfirmOutcome.answer true) (PromptOutcome.result "fresh start") "fresh start" (by decide)⟩

/-- C10: when listing succeeds with zero releases, both release cleanup
variants return success immediately, with no delete call and no
would-delete report, independently of the dry-run flag. -/
theorem zero_releases_no_deletions (repoInfo : RepoInfo)
    (gh : GitHubEnv) (gl : GitLabEnv) :
    (gh.listResult = Except.ok [] →
      DeleteGitHubReleases repoInfo gh =
        ([Event.ghListReleases repoInfo.fullPath repoInfo.repoName, Event.infoNoReleases],
         Except.ok ())) ∧
    (gl.clientOk = true → gl.listResult = Except.ok [] →
      DeleteGitLabReleases repoInfo gl =
        ([Event.glListReleases (repoInfo.fullPath ++ "/" ++ repoInfo.repoName),
          Event.infoNoReleases],
         Except.ok ())) := by
  constructor
  · intro h
    simp [DeleteGitHubReleases, h]
  · intro hc h
    simp [DeleteGitLabReleases, hc, h]

/-- Witness for C10 at concrete environments listing zero releases, one
with the dry-run flag set and one without. -/
theorem zero_releases_no_deletions_witness :
    DeleteGitHubReleases
        ⟨GitProvider.github, "owner", "repo", "tok", "", true⟩
        ⟨Except.ok [], fun _ => true⟩
      = ([Event.ghListReleases "owner" "repo", Event.infoNoReleases], Except.ok ()) ∧
    DeleteGitLabReleases
        ⟨GitProvider.gitlab, "group", "repo", "tok", "https://gitlab.com", false⟩
        ⟨true, Except.ok [], fun _ => true⟩
      = ([Event.glListReleases "group/repo", Event.infoNoReleases], Except.ok ()) := by
  constructor
  · exact ((zero_releases_no_deletions
      ⟨GitProvider.github, "owner", "repo", "tok", "", true⟩
      ⟨Except.ok [], fun _ => true⟩
      ⟨true, Except.ok [], fun _ => true⟩).1 rfl).trans (by decide)
  · exact ((zero_releases_no_deletions
      ⟨GitProvider.gitlab, "group", "repo", "tok", "https://gitlab.com", false⟩
      ⟨Except.ok [], fun _ => true⟩
      ⟨true, Except.ok [], fun _ => true⟩).2 rfl rfl).trans (by decide)

/-- In the GitHub release deletion loop, every release is attempted: the
API delete calls are exactly the listed release IDs in order, whatever
the per-release outcomes. -/
theorem ghDeleteCalls_ghDeleteLoop (d : Int → Bool) (rs : List GHRelease) :
    ghDeleteCalls (ghDeleteLoop d rs) = rs.map (fun r => r.id) := by
  induction rs with
  | nil => rfl
  | cons r rs ih =>
      by_cases hd : d r.id <;>
        simp [ghDeleteLoop, ghDeleteCalls, hd, List.filterMap_cons, List.filterMap_append] <;>
        simpa [ghDeleteCalls] using ih

/-- In the GitLab release deletion loop, every release is attempted: the
API delete calls are exactly the listed tag names in order. -/
theorem glDeleteCalls_glDeleteLoop (p : String) (d : String → Bool) (rs : List GLRelease) :
    glDeleteCalls (glDeleteLoop p d rs) = rs.map (fun r => r.tagName) := by
  induction rs with
  | nil => rfl
  | cons r rs ih =>
      by_cases hd : d r.tagName <;>
        simp [glDeleteLoop, glDeleteCalls, hd, List.filterMap_cons, List.filterMap_append] <;>
        simpa [glDeleteCalls] using ih

/-- A failed GitHub release deletion leaves a warning in the loop trace. -/
theorem warn_mem_ghDeleteLoop (d : Int → Bool) (rs : List GHRelease) (r : GHRelease)
    (hr : r ∈ rs) (hf : d r.id = false) :
    Event.warnGhReleaseDeleteFailed r.id ∈ ghDeleteLoop d rs := by
  induction rs with
  | nil => cases hr
  | cons a as ih =>
      cases hr with
      | head => simp [ghDeleteLoop, hf]
      | tail _ h =>
          simp only [ghDeleteLoop, List.mem_cons, List.mem_append]
          right
          right
          exact ih h

/-- A failed GitLab release deletion leaves a warning in the loop trace. -/
theorem warn_mem_glDeleteLoop (p : String) (d : String → Bool) (rs : List GLRelease) (r : GLRelease)
    (hr : r ∈ rs) (hf : d r.tagName = false) :
    Event.warnGlReleaseDeleteFailed r.tagName ∈ glDeleteLoop p d rs := by
  induction rs with
  | nil => cases hr
  | cons a as ih =>
      cases hr with
      | head => simp [glDeleteLoop, hf]
      | tail _ h =>
          simp only [glDeleteLoop, List.mem_cons, List.mem_append]
          right
          right
          exact ih h



/-- C5: in both release cleanup variants, a list failure is fatal and no
delete is attempted, while with a successful listing (non-dry-run) the
phase returns success, attempts the deletion of every listed release in
order, and logs a warning for each failed deletion. -/
theorem release_cleanup_failure_policy (repoInfo : RepoInfo)
    (gh : GitHubEnv) (gl : GitLabEnv)
    (e : String) (rs : List GHRelease) (ls : List GLRelease) :
    (gh.listResult = Except.error e →
       (DeleteGitHubReleases repoInfo gh).2 = Except.error ("failed to list releases: " ++ e) ∧
       ghDeleteCalls (DeleteGitHubReleases repoInfo gh).1 = []) ∧
    (gh.listResult = Except.ok rs → repoInfo.dryRun = false →
       (DeleteGitHubReleases repoInfo gh).2 = Except.ok () ∧
       ghDeleteCalls (DeleteGitHubReleases repoInfo gh).1 = rs.map (fun r => r.id) ∧
       ∀ r ∈ rs, gh.deleteOk r.id = false →
         Event.warnGhReleaseDeleteFailed r.id ∈ (DeleteGitHubReleases repoInfo gh).1) ∧
    (gl.clientOk = true → gl.listResult = Except.error e →
       (DeleteGitLabReleases repoInfo gl).2 = Except.error ("failed to list releases: " ++ e) ∧
       glDeleteCalls (DeleteGitLabReleases repoInfo gl).1 = []) ∧
    (gl.clientOk = true → gl.listResult = Except.ok ls → repoInfo.dryRun = false →
       (DeleteGitLabReleases repoInfo gl).2 = Except.ok () ∧
       glDeleteCalls (DeleteGitLabReleases repoInfo gl).1 = ls.map (fun r => r.tagName) ∧
       ∀ r ∈ ls, gl.deleteOk r.tagName = false →
         Event.warnGlReleaseDeleteFailed r.tagName ∈ (DeleteGitLabReleases repoInfo gl).1) := by
  refine ⟨?_, ?_, ?_, ?_⟩
  · intro h
    simp [DeleteGitHubReleases, h, ghDeleteCalls]
  · intro h hd
    rcases rs with _ | ⟨r, rs⟩
    · simp [DeleteGitHubReleases, h, ghDeleteCalls]
    · refine ⟨?_, ?_, ?_⟩
      · simp [DeleteGitHubReleases, h, hd]
      · simpa [DeleteGitHubReleases, h, hd, ghDeleteCalls, List.filterMap_cons]
          using ghDeleteCalls_ghDeleteLoop gh.deleteOk (r :: rs)
      · intro x hx hfx
        have hm := warn_mem_ghDeleteLoop gh.deleteOk (r :: rs) x hx hfx
        simp [DeleteGitHubReleases, h, hd, List.mem_cons]
        tauto
  · intro hc h
    simp [DeleteGitLabReleases, hc, h, glDeleteCalls]
  · intro hc h hd
    rcases ls with _ | ⟨r, ls⟩
    · simp [DeleteGitLabReleases, hc, h, glDeleteCalls]
    · refine ⟨?_, ?_, ?_⟩
      · simp [DeleteGitLabReleases, hc, h, hd]
      · simpa [DeleteGitLabReleases, hc, h, hd, glDeleteCalls, List.filterMap_cons]
          using glDeleteCalls_glDeleteLoop (repoInfo.fullPath ++ "/" ++ repoInfo.repoName)
            gl.deleteOk (r :: ls)
      · intro x hx hfx
        have hm := warn_mem_glDeleteLoop (repoInfo.fullPath ++ "/" ++ repoInfo.repoName)
          gl.deleteOk (r :: ls) x hx hfx
        simp [DeleteGitLabReleases, hc, h, hd, List.mem_cons]
        tauto

/-- Witness for C5: a failing GitHub listing is fatal with no delete
attempted; a GitHub cleanup over two releases whose first deletion fails
still attempts both, warns, and succeeds. -/
theorem release_cleanup_failure_policy_witness :
    (DeleteGitHubReleases ⟨GitProvider.github, "owner", "repo", "tok", "", false⟩
        ⟨Except.error "boom", fun _ => true⟩).2
      = Except.error "failed to list releases: boom" ∧
    ghDeleteCalls (DeleteGitHubReleases ⟨GitProvider.github, "owner", "repo", "tok", "", false⟩
        ⟨Except.error "boom", fun _ => true⟩).1 = [] ∧
    (DeleteGitHubReleases ⟨GitProvider.github, "owner", "repo", "tok", "", false⟩
        ⟨Except.ok [⟨1, "a", "v1"⟩, ⟨2, "b", "v2"⟩], fun i => decide (i ≠ 1)⟩).2
      = Except.ok () ∧
    ghDeleteCalls (DeleteGitHubReleases ⟨GitProvider.github, "owner", "repo", "tok", "", false⟩
        ⟨Except.ok [⟨1, "a", "v1"⟩, ⟨2, "b", "v2"⟩], fun i => decide (i ≠ 1)⟩).1 = [1, 2] ∧
    Event.warnGhReleaseDeleteFailed 1 ∈
      (DeleteGitHubReleases ⟨GitProvider.github, "owner", "repo", "tok", "", false⟩
        ⟨Except.ok [⟨1, "a", "v1"⟩, ⟨2, "b", "v2"⟩], fun i => decide (i ≠ 1)⟩).1 := by
  have h1 := (release_cleanup_failure_policy
    ⟨GitProvider.github, "owner", "repo", "tok", "", false⟩
    ⟨Except.error "boom", fun _ => true⟩
    ⟨true, Except.ok [], fun _ => true⟩ "boom" [] []).1 rfl
  have h2 := (release_cleanup_failure_policy
    ⟨GitProvider.github, "owner", "repo", "tok", "", false⟩
    ⟨Except.ok [⟨1, "a", "v1"⟩, ⟨2, "b", "v2"⟩], fun i => decide (i ≠ 1)⟩
    ⟨true, Except.ok [], fun _ => true⟩ "boom" [⟨1, "a", "v1"⟩, ⟨2, "b", "v2"⟩] []).2.1 rfl rfl
  exact ⟨h1.1, h1.2, h2.1, h2.2.1.trans (by decide),
    h2.2.2 ⟨1, "a", "v1"⟩ (by decide) (by decide)⟩

/-- C6: a clone failure makes ResetRepo return an error immediately; the
trace stops at the clone invocation, so no history rewrite, tag cleanup,
push or release call follows. -/
theorem clone_failure_aborts_immediately (env : Env) (cwd0 : String) (tmp0 : Bool)
    (r : RepoInfo) (m : String)
    (h1 : env.fs.removeAllOk = true) (h2 : env.fs.mkdirOk = true)
    (h3 : env.fs.chdirTmpOk = true)
    (hclone : env.git.run ["clone", cloneURL r] = false) :
    (ResetRepo env cwd0 tmp0 r m).2.2 = Except.error "failed to clone repository" ∧
    (ResetRepo env cwd0 tmp0 r m).1 =
      [Event.infoCloning (cloneURL r), Event.gitRun ["clone", cloneURL r]] := by
  simp [ResetRepo, h1, h2, h3, hclone]

/-- Witness for C6 at a concrete environment whose git commands all fail. -/
theorem clone_failure_aborts_immediately_witness :
    (ResetRepo ⟨"/tmp", ⟨true, true, true, true⟩, ⟨fun _ => false, true, ""⟩,
        ⟨Except.ok [], fun _ => true⟩, ⟨true, Except.ok [], fun _ => true⟩⟩
      "/home/user" false ⟨GitProvider.github, "owner", "repo", "tok", "", false⟩ "msg").2.2
      = Except.error "failed to clone repository" ∧
    (ResetRepo ⟨"/tmp", ⟨true, true, true, true⟩, ⟨fun _ => false, true, ""⟩,
        ⟨Except.ok [], fun _ => true⟩, ⟨true, Except.ok [], fun _ => true⟩⟩
      "/home/user" false ⟨GitProvider.github, "owner", "repo", "tok", "", false⟩ "msg").1
      = [Event.infoCloning (cloneURL ⟨GitProvider.github, "owner", "repo", "tok", "", false⟩),
         Event.gitRun ["clone", cloneURL ⟨GitProvider.github, "owner", "repo", "tok", "", false⟩]] :=
  clone_failure_aborts_immediately
    ⟨"/tmp", ⟨true, true, true, true⟩, ⟨fun _ => false, true, ""⟩,
      ⟨Except.ok [], fun _ => true⟩, ⟨true, Except.ok [], fun _ => true⟩⟩
    "/home/user" false ⟨GitProvider.github, "owner", "repo", "tok", "", false⟩ "msg"
    rfl rfl rfl rfl

/-- An environment in which every external operation succeeds except the
git branch -D main command. -/
def branchDeleteFailEnv : Env :=
  { tempDir := "/tmp", fs := ⟨true, true, true, true⟩,
    git := { run := fun args => args ≠ ["branch", "-D", "main"], tagOk := true, tagOutput := "" },
    gh := { listResult := Except.ok [], deleteOk := fun _ => true },
    gl := { clientOk := true, listResult := Except.ok [], deleteOk := fun _ => true } }

/-- C1 failing input: the tolerance guard of the history-rewrite loop
tests strings.Contains(op.args[0], "branch -D"), but op.args[0] is the
single word "branch", which never contains "branch -D"; so when only
git branch -D main fails, ResetRepo aborts with an error at that
sub-step instead of continuing to the rename, and the trace ends there. -/
theorem branch_delete_failure_is_fatal :
    goStringsContains "branch" "branch -D" = false ∧
    (ResetRepo branchDeleteFailEnv "/home/user" false
        ⟨GitProvider.github, "owner", "repo", "tok", "", false⟩ "msg").2.2
      = Except.error "failed to Removing old main branch" ∧
    (ResetRepo branchDeleteFailEnv "/home/user" false
        ⟨GitProvider.github, "owner", "repo", "tok", "", false⟩ "msg").1
      = [Event.infoCloning "https://github.com/owner/repo.git",
         Event.gitRun ["clone", "https://github.com/owner/repo.git"],
         Event.infoExecuting ["checkout", "--orphan", "temp_branch"],
         Event.gitRun ["checkout", "--orphan", "temp_branch"],
         Event.infoExecuting ["add", "-A"],
         Event.gitRun ["add", "-A"],
         Event.infoExecuting ["commit", "-m", "msg"],
         Event.gitRun ["commit", "-m", "msg"],
         Event.infoExecuting ["branch", "-D", "main"],
         Event.gitRun ["branch", "-D", "main"]] := by
  refine ⟨by decide, by decide, by decide⟩

/-- An all-success environment with two tags and one listed GitHub
release, used for the dry-run scenario. -/
def dryRunTwoTagsEnv : Env :=
  { tempDir := "/tmp", fs := ⟨true, true, true, true⟩,
    git := { run := fun _ => true, tagOk := true, tagOutput := "v1.0.0\nv1.1.0" },
    gh := { listResult := Except.ok [⟨1, "rel1", "v1.0.0"⟩], deleteOk := fun _ => true },
    gl := { clientOk := true, listResult := Except.ok [], deleteOk := fun _ => true } }

/-- C2 failing input: a dry run with two tags and one release succeeds
with zero remote push or delete commands and reports the would-be-deleted
tags and the would-be force push, but produces no release event at all:
ResetRepo returns at the dry-run checkpoint before the release cleanup is
ever called, so the releases that would be deleted are not reported. -/
theorem dry_run_never_reports_releases :
    (ResetRepo dryRunTwoTagsEnv "/home/user" false
        ⟨GitProvider.github, "owner", "repo", "tok", "", true⟩ "msg").2.2 = Except.ok () ∧
    remotePushCmds (ResetRepo dryRunTwoTagsEnv "/home/user" false
        ⟨GitProvider.github, "owner", "repo", "tok", "", true⟩ "msg").1 = [] ∧
    Event.wouldDeleteRemoteTags ["v1.0.0", "v1.1.0"] ∈
      (ResetRepo dryRunTwoTagsEnv "/home/user" false
        ⟨GitProvider.github, "owner", "repo", "tok", "", true⟩ "msg").1 ∧
    Event.wouldForcePush ∈
      (ResetRepo dryRunTwoTagsEnv "/home/user" false
        ⟨GitProvider.github, "owner", "repo", "tok", "", true⟩ "msg").1 ∧
    ((ResetRepo dryRunTwoTagsEnv "/home/user" false
        ⟨GitProvider.github, "owner", "repo", "tok", "", true⟩ "msg").1.filter
      isReleaseEvent) = [] := by
  refine ⟨by decide, by decide, by decide, by decide, by decide⟩

/-- Every tag in the remote tag deletion loop gets its push delete
command invoked, whatever the per-tag outcomes. -/
theorem deleteRemoteTags_attempts (run : List String → Bool) (ts : List String)
    (t : String) (ht : t ∈ ts) :
    Event.gitRun ["push", "origin", "--delete", "refs/tags/" ++ t] ∈ deleteRemoteTags run ts := by
  induction ts with
  | nil => cases ht
  | cons a as ih =>
      cases ht with
      | head => simp [deleteRemoteTags]
      | tail _ h =>
          simp only [deleteRemoteTags, List.mem_cons, List.mem_append]
          right
          right
          exact ih h

/-- The remote deletion command of a member tag appears in the guarded
remote-deletion section of the trace. -/
theorem mem_remote_section (run : List String → Bool) (tags : List String)
    (t : String) (ht : t ∈ tags) :
    Event.gitRun ["push", "origin", "--delete", "refs/tags/" ++ t] ∈
      (if tags.length > 0 then deleteRemoteTags run tags else []) := by
  rcases tags with _ | ⟨a, as⟩
  · cases ht
  · simpa using deleteRemoteTags_attempts run (a :: as) t ht

/-- A failed remote tag deletion of a member tag leaves a warning in the
remote tag deletion loop trace. -/
theorem warn_mem_deleteRemoteTags (run : List String → Bool) (ts : List String)
    (t : String) (ht : t ∈ ts)
    (hf : run ["push", "origin", "--delete", "refs/tags/" ++ t] = false) :
    Event.warnRemoteTagDeleteFailed t ∈ deleteRemoteTags run ts := by
  induction ts with
  | nil => cases ht
  | cons a as ih =>
      cases ht with
      | head => simp [deleteRemoteTags, hf]
      | tail _ h =>
          simp only [deleteRemoteTags, List.mem_cons, List.mem_append]
          right
          right
          exact ih h

/-- The warning of a failed remote deletion of a member tag appears in
the guarded remote-deletion section of the trace. -/
theorem warn_mem_remote_section (run : List String → Bool) (tags : List String)
    (t : String) (ht : t ∈ tags)
    (hf : run ["push", "origin", "--delete", "refs/tags/" ++ t] = false) :
    Event.warnRemoteTagDeleteFailed t ∈
      (if tags.length > 0 then deleteRemoteTags run tags else []) := by
  rcases tags with _ | ⟨a, as⟩
  · cases ht
  · simpa using warn_mem_deleteRemoteTags run (a :: as) t ht hf

/-- C7: in a non-dry run that reaches remote tag cleanup, the remote
deletion of every enumerated tag is attempted regardless of individual
failures, every failed remote deletion is logged as a warning, and the
force push of main is still reached. -/
theorem remote_tag_deletion_tolerant (env : Env) (cwd0 : String) (tmp0 : Bool)
    (r : RepoInfo) (m : String) (tags : List String)
    (h1 : env.fs.removeAllOk = true) (h2 : env.fs.mkdirOk = true)
    (h3 : env.fs.chdirTmpOk = true)
    (hclone : env.git.run ["clone", cloneURL r] = true)
    (hops : (runGitOperations env.git.run (gitOperations m)).2 = none)
    (htags : GetGitTags env.git = Except.ok tags)
    (hdry : r.dryRun = false) :
    (∀ t ∈ tags, Event.gitRun ["push", "origin", "--delete", "refs/tags/" ++ t]
        ∈ (ResetRepo env cwd0 tmp0 r m).1) ∧
    (∀ t ∈ tags, env.git.run ["push", "origin", "--delete", "refs/tags/" ++ t] = false →
        Event.warnRemoteTagDeleteFailed t ∈ (ResetRepo env cwd0 tmp0 r m).1) ∧
    Event.gitRun ["push", "-f", "origin", "main"] ∈ (ResetRepo env cwd0 tmp0 r m).1 := by
  refine ⟨?_, ?_, ?_⟩
  · intro t ht
    have hlen : 0 < tags.length := List.length_pos.mpr (List.ne_nil_of_mem ht)
    have hr := mem_remote_section env.git.run tags t ht
    simp [hlen] at hr
    by_cases hp : env.git.run ["push", "-f", "origin", "main"] <;>
      cases hprov : r.provider <;>
        simp [ResetRepo, h1, h2, h3, hclone, hops, htags, hdry, hp, hprov, hlen,
              List.mem_append] <;>
        tauto
  · intro t ht hf
    have hlen : 0 < tags.length := List.length_pos.mpr (List.ne_nil_of_mem ht)
    have hr := warn_mem_remote_section env.git.run tags t ht hf
    simp [hlen] at hr
    by_cases hp : env.git.run ["push", "-f", "origin", "main"] <;>
      cases hprov : r.provider <;>
        simp [ResetRepo, h1, h2, h3, hclone, hops, htags, hdry, hp, hprov, hlen,
              List.mem_append] <;>
        tauto
  · by_cases hp : env.git.run ["push", "-f", "origin", "main"] <;>
      cases hprov : r.provider <;>
        simp [ResetRepo, h1, h2, h3, hclone, hops, htags, hdry, hp, hprov,
              List.mem_append]

/-- An environment with three tags in which the remote deletion of tag v2
fails while every other operation succeeds. -/
def remoteTagFailEnv : Env :=
  { tempDir := "/tmp", fs := ⟨true, true, true, true⟩,
    git := { run := fun args => args ≠ ["push", "origin", "--delete", "refs/tags/v2"],
             tagOk := true, tagOutput := "v1\nv2\nv3" },
    gh := { listResult := Except.ok [], deleteOk := fun _ => true },
    gl := { clientOk := true, listResult := Except.ok [], deleteOk := fun _ => true } }

/-- Witness for C7: with the remote deletion of v2 failing among three
tags, all three remote deletions are attempted, the v2 failure is logged
as a warning, and the force push still happens. -/
theorem remote_tag_deletion_tolerant_witness :
    (∀ t ∈ ["v1", "v2", "v3"], Event.gitRun ["push", "origin", "--delete", "refs/tags/" ++ t]
        ∈ (ResetRepo remoteTagFailEnv "/home/user" false
            ⟨GitProvider.github, "owner", "repo", "tok", "", false⟩ "msg").1) ∧
    (∀ t ∈ ["v1", "v2", "v3"],
        remoteTagFailEnv.git.run ["push", "origin", "--delete", "refs/tags/" ++ t] = false →
        Event.warnRemoteTagDeleteFailed t ∈
          (ResetRepo remoteTagFailEnv "/home/user" false
            ⟨GitProvider.github, "owner", "repo", "tok", "", false⟩ "msg").1) ∧
    Event.gitRun ["push", "-f", "origin", "main"] ∈
      (ResetRepo remoteTagFailEnv "/home/user" false
        ⟨GitProvider.github, "owner", "repo", "tok", "", false⟩ "msg").1 :=
  remote_tag_deletion_tolerant remoteTagFailEnv "/home/user" false
    ⟨GitProvider.github, "owner", "repo", "tok", "", false⟩ "msg" ["v1", "v2", "v3"]
    rfl rfl rfl (by decide) (by decide) (by decide) rfl

/-- An environment in which every external operation succeeds, with no
tags and no releases. -/
def allOkDryEnv : Env :=
  { tempDir := "/tmp", fs := ⟨true, true, true, true⟩,
    git := { run := fun _ => true, tagOk := true, tagOutput := "" },
    gh := { listResult := Except.ok [], deleteOk := fun _ => true },
    gl := { clientOk := true, listResult := Except.ok [], deleteOk := fun _ => true } }

/-- C8 counterexample: a fully successful dry run of ResetRepo ends with
the workspace removed but the working directory equal to the clone
directory inside the removed workspace, not restored to the initial
directory: the claim that the working directory is never left pointing
into the now-deleted workspace is false. -/
theorem cwd_restoration_counterexample :
    (ResetRepo allOkDryEnv "/home/user" false
        ⟨GitProvider.github, "owner", "repo", "tok", "", true⟩ "msg").2.2 = Except.ok () ∧
    (ResetRepo allOkDryEnv "/home/user" false
        ⟨GitProvider.github, "owner", "repo", "tok", "", true⟩ "msg").2.1
      = ⟨"/tmp/git-tmp/repo", false⟩ ∧
    ("/tmp/git-tmp/repo" : String) ≠ "/home/user" ∧
    goStringsContains "/tmp/git-tmp/repo" "/tmp/git-tmp" = true := by
  refine ⟨by decide, by decide, by decide, by decide⟩

/-- C8 amended: on every exit path of ResetRepo past workspace
preparation, the deferred removal deletes the workspace, and the working
directory is NOT restored: it is left at the workspace path or at the
clone directory inside it, both inside the now-deleted workspace. -/
theorem workspace_removed_cwd_not_restored (env : Env) (cwd0 : String) (tmp0 : Bool)
    (r : RepoInfo) (m : String)
    (h1 : env.fs.removeAllOk = true) (h2 : env.fs.mkdirOk = true)
    (h3 : env.fs.chdirTmpOk = true) :
    (ResetRepo env cwd0 tmp0 r m).2.1.tmpExists = false ∧
    ((ResetRepo env cwd0 tmp0 r m).2.1.cwd = env.tempDir ++ "/git-tmp" ∨
     (ResetRepo env cwd0 tmp0 r m).2.1.cwd
       = env.tempDir ++ "/git-tmp" ++ "/" ++ r.repoName) := by
  by_cases hcl : env.git.run ["clone", cloneURL r] <;>
  by_cases hcr : env.fs.chdirRepoOk <;>
  rcases hops : (runGitOperations env.git.run (gitOperations m)).2 with _ | e <;>
  rcases htags : GetGitTags env.git with e2 | tags <;>
  by_cases hdry : r.dryRun <;>
  by_cases hp : env.git.run ["push", "-f", "origin", "main"] <;>
  cases hprov : r.provider <;>
    simp [ResetRepo, h1, h2, h3, hcl, hcr, hops, htags, hdry, hp, hprov]

/-- Witness for the amended C8 at a concrete environment in which the
push fails: the workspace is removed and the working directory is left
inside it. -/
theorem workspace_removed_cwd_not_restored_witness :
    (ResetRepo ⟨"/var/tmp", ⟨true, true, true, true⟩,
        ⟨fun args => args ≠ ["push", "-f", "origin", "main"], true, ""⟩,
        ⟨Except.ok [], fun _ => true⟩, ⟨true, Except.ok [], fun _ => true⟩⟩
      "/home/user" true ⟨GitProvider.gitlab, "group", "proj", "tok", "https://gitlab.com", false⟩
      "msg").2.1.tmpExists = false ∧
    ((ResetRepo ⟨"/var/tmp", ⟨true, true, true, true⟩,
        ⟨fun args => args ≠ ["push", "-f", "origin", "main"], true, ""⟩,
        ⟨Except.ok [], fun _ => true⟩, ⟨true, Except.ok [], fun _ => true⟩⟩
      "/home/user" true ⟨GitProvider.gitlab, "group", "proj", "tok", "https://gitlab.com", false⟩
      "msg").2.1.cwd = "/var/tmp" ++ "/git-tmp" ∨
     (ResetRepo ⟨"/var/tmp", ⟨true, true, true, true⟩,
        ⟨fun args => args ≠ ["push", "-f", "origin", "main"], true, ""⟩,
        ⟨Except.ok [], fun _ => true⟩, ⟨true, Except.ok [], fun _ => true⟩⟩
      "/home/user" true ⟨GitProvider.gitlab, "group", "proj", "tok", "https://gitlab.com", false⟩
      "msg").2.1.cwd = "/var/tmp" ++ "/git-tmp" ++ "/" ++ "proj") :=
  workspace_removed_cwd_not_restored
    ⟨"/var/tmp", ⟨true, true, true, true⟩,
      ⟨fun args => args ≠ ["push", "-f", "origin", "main"], true, ""⟩,
      ⟨Except.ok [], fun _ => true⟩, ⟨true, Except.ok [], fun _ => true⟩⟩
    "/home/user" true ⟨GitProvider.gitlab, "group", "proj", "tok", "https://gitlab.com", false⟩
    "msg" rfl rfl rfl
